import Mathlib

/-!
Verification of the notebook-import hook in `Workings/Importing Notebooks.ipynb`
(repository `agaitskellwork/dashappazure`).

The embedded functions follow the Python source:
  * `find_notebook`    — the DocumentLocator (`find_notebook(fullname, path)`),
  * `NotebookLoader.load_module` — the ModuleLoader,
  * `NotebookFinder.find_module` — the ModuleResolver/Finder.

The filesystem is modelled as an association list from paths to parsed
notebooks: `os.path.isfile p` holds exactly when `p` has an entry, and
`nbformat.read` on such a path yields the stored notebook.  Python object
identity is modelled with an explicit heap: module dictionaries live in a
heap indexed by `Nat` references, `sys.modules` maps names to references,
and the interactive shell's `user_ns` is a reference into the same heap,
so the aliasing done by `sys.modules[fullname] = mod` and
`self.shell.user_ns = mod.__dict__` is preserved.  Execution of one
transformed code cell (`exec(code, mod.__dict__)`) is an abstract parameter
`execPy`, and IPython's `transform_cell` is an abstract parameter
`transform_cell`, since their behaviour lives outside this repository.
-/

set_option autoImplicit false

namespace NbImport

/-- Association-list lookup with decidable key equality, modelling Python
dictionary lookup. -/
def alookup {α β : Type} [DecidableEq α] (k : α) : List (α × β) → Option β
  | [] => none
  | (k₂, v) :: rest => if k = k₂ then some v else alookup k rest

/-- Cell kinds: the loader only distinguishes `code` from everything else
(markdown, raw). -/
inductive CellType where
  | code
  | markdown
  | raw
deriving DecidableEq, Repr

/-- One notebook cell: a kind tag and its raw source text. -/
structure Cell where
  cell_type : CellType
  source : String
deriving DecidableEq, Repr

/-- A parsed notebook document: an ordered list of cells. -/
structure Notebook where
  cells : List Cell
deriving DecidableEq, Repr

/-- The filesystem: paths mapped to the notebook stored at that path.
`os.path.isfile p` holds iff `p` is a key. -/
abbrev Fs : Type := List (String × Notebook)

/-- Model of `os.path.isfile`. -/
def isfile (fs : Fs) (p : String) : Bool := (alookup p fs).isSome

/-- Model of `os.path.join d f` for the shapes used by the source:
joining the empty directory gives the bare filename. -/
def pathJoin (d f : String) : String := if d = "" then f else d ++ "/" ++ f

/-- Model of `s.replace("_", " ")`.  For a single-character pattern this is
exactly the character-wise substitution. -/
def replaceUnderscore (s : String) : String :=
  ⟨s.data.map (fun c => if c = '_' then ' ' else c)⟩

/-- Model of `fullname.rsplit('.', 1)[-1]`: the segment after the last dot
(the whole string when no dot occurs). -/
def leafName (fullname : String) : String :=
  ⟨(fullname.data.reverse.takeWhile (fun c => c ≠ '.')).reverse⟩

/-- The directory list actually searched: `if not path: path = ['']` treats
both `None` and the empty list as the single empty directory. -/
def dirsOf (path : Option (List String)) : List String :=
  match path with
  | none => [""]
  | some [] => [""]
  | some ps => ps

/-- The loop body of `find_notebook`: for each directory, try
`d/name.ipynb`; failing that, try the same candidate with every `_` in the
whole path replaced by a space; first hit wins. -/
def findNotebookIn (fs : Fs) (name : String) : List String → Option String
  | [] => none
  | d :: rest =>
    let nb_path := pathJoin d (name ++ ".ipynb")
    if isfile fs nb_path then some nb_path
    else
      let nb_path2 := replaceUnderscore nb_path
      if isfile fs nb_path2 then some nb_path2
      else findNotebookIn fs name rest

/-- Embedding of `find_notebook(fullname, path)` from the source. -/
def find_notebook (fs : Fs) (fullname : String) (path : Option (List String)) :
    Option String :=
  findNotebookIn fs (leafName fullname) (dirsOf path)

/-- Python-level errors surfaced by the embedded code. `typeError` stands
for the `TypeError` raised by `io.open(None, ...)` or by using an
unhashable list as a dict key; `exc s` is an arbitrary error raised while
executing a code cell. -/
inductive PyError where
  | typeError
  | ioError
  | exc : String → PyError
deriving DecidableEq, Repr

deriving instance DecidableEq for Except

/-- Values stored in a module namespace.  `getIpythonFn` is the
`get_ipython` function object; `loaderVal p` stands for the
`NotebookLoader` bound to search path `p`; `str` covers string-valued
metadata; `obj` covers anything a cell binds. -/
inductive Value where
  | str : String → Value
  | getIpythonFn
  | loaderVal : Option (List String) → Value
  | vnone
  | obj : Nat → Value
deriving DecidableEq, Repr

/-- A module namespace (`mod.__dict__`): identifier to value. -/
abbrev Namespace : Type := List (String × Value)

/-- The loader object: its bound search path, plus an allocation identity
used to reason about "same instance" (Python object identity). -/
structure NotebookLoader where
  path : Option (List String)
  id : Nat
deriving DecidableEq, Repr

/-- The namespace a fresh module starts with: `types.ModuleType(fullname)`
followed by the three assignments
`mod.__file__ = path`, `mod.__loader__ = self`,
`mod.__dict__['get_ipython'] = get_ipython`. -/
def seedNs (fullname path : String) (loaderPath : Option (List String)) :
    Namespace :=
  [("__name__", Value.str fullname),
   ("__file__", Value.str path),
   ("__loader__", Value.loaderVal loaderPath),
   ("get_ipython", Value.getIpythonFn)]

/-- Interpreter state shared across loads: `sys.modules` (name to module
reference), the heap of module dictionaries, a fresh-reference counter,
and the shell's `user_ns` reference. -/
structure PyState where
  sys_modules : List (String × Nat)
  heap : List (Nat × Namespace)
  nextRef : Nat
  user_ns : Nat
deriving DecidableEq, Repr

section Exec

variable (execPy : String → Namespace → Except PyError Namespace)
variable (transform_cell : String → String)

/-- The cell loop of `load_module`: for each cell in document order, if it
is a code cell, transform its source and execute it in the namespace; stop
at the first error, returning the namespace reached so far together with
the raised error. -/
def runCells : List Cell → Namespace → Namespace × Option PyError
  | [], ns => (ns, none)
  | c :: rest, ns =>
    if c.cell_type = CellType.code then
      match execPy (transform_cell c.source) ns with
      | .ok ns2 => runCells rest ns2
      | .error e => (ns, some e)
    else runCells rest ns

/-- Sequential execution of a list of cells, all assumed executable,
failing on the first raised error. -/
def execSeq : List Cell → Namespace → Except PyError Namespace
  | [], ns => .ok ns
  | c :: rest, ns =>
    match execPy (transform_cell c.source) ns with
    | .ok ns2 => execSeq rest ns2
    | .error e => .error e

/-- Specification-side formulation of the cell loop: execute exactly the
cells of kind `code`, in document order, each transformed once and run
once. -/
def runCodeOnly (cells : List Cell) (ns : Namespace) : Except PyError Namespace :=
  execSeq execPy transform_cell
    (cells.filter fun c => decide (c.cell_type = CellType.code)) ns

/-- Embedding of `NotebookLoader.load_module(fullname)`.  The source:
resolves the path with `find_notebook` (a `None` result makes the
subsequent `io.open(None, ...)` raise), reads the notebook, creates the
module, seeds its dict, inserts it into `sys.modules` before any cell
runs, swaps `self.shell.user_ns` to the module dict, executes the code
cells, and restores `user_ns` in a `finally` on every exit path.  The
in-place mutation of `mod.__dict__` is modelled by writing the namespace
reached by the cell loop (complete or partial) back to the module's heap
cell, which `sys.modules` aliases. -/
def load_module (fs : Fs) (self : NotebookLoader) (fullname : String)
    (st : PyState) : Except PyError Nat × PyState :=
  match find_notebook fs fullname self.path with
  | none => (.error .typeError, st)
  | some path =>
    match alookup path fs with
    | none => (.error .ioError, st)
    | some nb =>
      let r := st.nextRef
      let seed := seedNs fullname path self.path
      let save := st.user_ns
      let step := runCells execPy transform_cell nb.cells seed
      let st2 : PyState :=
        { sys_modules := (fullname, r) :: st.sys_modules,
          heap := (r, step.1) :: st.heap,
          nextRef := r + 1,
          user_ns := save }
      match step.2 with
      | none => (.ok r, st2)
      | some e => (.error e, st2)

end Exec

/-- A cache key in the finder's `self.loaders` dict: `None` when the call
passed no path, otherwise the `os.path.sep`-joined string. -/
inductive Key where
  | noneKey
  | strKey : String → Key
deriving DecidableEq, Repr

/-- The key computation of `find_module`: `key = path; if path: key =
os.path.sep.join(path)`.  A `None` path is itself a hashable key; a
nonempty list is replaced by its joined string; an empty list stays a
list, and using it as a dict key raises `TypeError` (lists are
unhashable). -/
def cacheKey : Option (List String) → Except PyError Key
  | none => .ok Key.noneKey
  | some [] => .error .typeError
  | some ps => .ok (Key.strKey (String.intercalate "/" ps))

/-- The finder object: its private loader cache and a fresh-identity
counter for newly constructed loaders. -/
structure NotebookFinder where
  loaders : List (Key × NotebookLoader)
  nextId : Nat
deriving DecidableEq, Repr

/-- Embedding of `NotebookFinder.find_module(fullname, path)`:
locate the notebook (returning `None`, i.e. Decline, if absent), compute
the cache key, and return the cached loader for that key, constructing and
caching a new `NotebookLoader(path)` on a miss. -/
def find_module (fs : Fs) (f : NotebookFinder) (fullname : String)
    (path : Option (List String)) :
    Except PyError (Option NotebookLoader) × NotebookFinder :=
  match find_notebook fs fullname path with
  | none => (.ok none, f)
  | some _ =>
    match cacheKey path with
    | .error e => (.error e, f)
    | .ok key =>
      match alookup key f.loaders with
      | some l => (.ok (some l), f)
      | none =>
        let l : NotebookLoader := ⟨path, f.nextId⟩
        (.ok (some l), ⟨(key, l) :: f.loaders, f.nextId + 1⟩)

/-! ### Claim-side formulations -/

/-- Formulation of claim C5's locate algorithm, written from the claim:
first a pass over all directories with the primary candidate built from
the unmodified leaf name, and only if no directory matched, a second pass
with the fallback candidate built by replacing every underscore in the
leaf name (and only the leaf name) with a space. -/
def locateClaim (fs : Fs) (fullname : String) (path : Option (List String)) :
    Option String :=
  let name := leafName fullname
  let dirs := dirsOf path
  match dirs.find? (fun d => isfile fs (pathJoin d (name ++ ".ipynb"))) with
  | some d => some (pathJoin d (name ++ ".ipynb"))
  | none =>
    let fallback := replaceUnderscore name
    match dirs.find? (fun d => isfile fs (pathJoin d (fallback ++ ".ipynb"))) with
    | some d => some (pathJoin d (fallback ++ ".ipynb"))
    | none => none

/-- Amended formulation of claim C5, written from the amended words: for
each directory in caller order the locator checks two candidates — the
primary one from the unmodified leaf name, then the one obtained by
replacing every underscore of the whole candidate path (directory part
included) with a space — and the first existing file wins. -/
def locateAmended (fs : Fs) (fullname : String) (path : Option (List String)) :
    Option String :=
  (dirsOf path).findSome? (fun d =>
    let primary := pathJoin d (leafName fullname ++ ".ipynb")
    List.find? (fun p => isfile fs p) [primary, replaceUnderscore primary])

/-- Well-formedness of a finder: every cached loader's identity is below
the fresh-identity counter, and distinct keys cache loaders with distinct
identities.  The freshly constructed finder satisfies it and `find_module`
preserves it. -/
def FinderWF (f : NotebookFinder) : Prop :=
  (∀ k l, alookup k f.loaders = some l → l.id < f.nextId) ∧
  (∀ k1 k2 l1 l2, alookup k1 f.loaders = some l1 →
    alookup k2 f.loaders = some l2 → k1 ≠ k2 → l1.id ≠ l2.id)

/-! ### Concrete fixtures used by witnesses and counterexamples -/

/-- A notebook with no cells. -/
def nbEmpty : Notebook := ⟨[]⟩

/-- A notebook whose only cell is a markdown cell. -/
def nbMd : Notebook := ⟨[⟨CellType.markdown, "hello"⟩]⟩

/-- A notebook whose first and only code cell raises. -/
def nbFail1 : Notebook := ⟨[⟨CellType.code, "raise"⟩]⟩

/-- A notebook whose second code cell raises. -/
def nbFail2 : Notebook := ⟨[⟨CellType.code, "a=1"⟩, ⟨CellType.code, "raise"⟩]⟩

/-- A notebook with two code cells separated by a markdown cell. -/
def nbOk : Notebook :=
  ⟨[⟨CellType.code, "a=1"⟩, ⟨CellType.markdown, "ignored"⟩, ⟨CellType.code, "b=2"⟩]⟩

/-- Filesystem for the C5 counterexample: the first directory holds only
the space-form file, the second holds the underscore-form file. -/
def fsC5 : Fs := [("d 1/a b.ipynb", nbEmpty), ("d2/a_b.ipynb", nbEmpty)]

/-- Filesystem for the C6 counterexample: `nb.ipynb` present both directly
under `a` and under `a/b`. -/
def fsC6 : Fs := [("a/nb.ipynb", nbEmpty), ("a/b/nb.ipynb", nbEmpty)]

/-- Filesystem with a notebook in the current directory. -/
def fsC8 : Fs := [("nb.ipynb", nbEmpty)]

/-- Filesystem holding the immediately failing notebook as `mod_one`. -/
def fsA : Fs := [("mod_one.ipynb", nbFail1)]

/-- Filesystem holding the second-cell-failing notebook as `mod_two`. -/
def fsB : Fs := [("mod_two.ipynb", nbFail2)]

/-- Filesystem holding the markdown-only notebook as `m`. -/
def fsMd : Fs := [("m.ipynb", nbMd)]

/-- Filesystem holding the two-code-cell notebook as `mod_ok`. -/
def fsOk : Fs := [("mod_ok.ipynb", nbOk)]

/-- A freshly constructed finder: empty cache. -/
def finder0 : NotebookFinder := ⟨[], 0⟩

/-- A loader bound to no search path. -/
def ldr0 : NotebookLoader := ⟨none, 0⟩

/-- Concrete cell-execution semantics for witnesses: the source `"raise"`
raises, any other source binds its text as a fresh name. -/
def execDemo : String → Namespace → Except PyError Namespace
  | s, ns =>
    if s = "raise" then .error (.exc "boom")
    else .ok (ns ++ [(s, Value.obj 0)])

/-- Identity transform: every cell is already pure Python. -/
def idT : String → String := fun s => s

/-- Initial interpreter state: an interactive namespace at reference 0 and
an empty module registry. -/
def st0 : PyState := ⟨[], [(0, [])], 1, 0⟩

/-! ### Supporting lemmas -/

@[simp] theorem alookup_nil {α β : Type} [DecidableEq α] (k : α) :
    alookup k ([] : List (α × β)) = none := rfl

@[simp] theorem alookup_cons {α β : Type} [DecidableEq α] (k k₂ : α) (v : β)
    (rest : List (α × β)) :
    alookup k ((k₂, v) :: rest) = if k = k₂ then some v else alookup k rest := rfl

section ExecLemmas

variable (execPy : String → Namespace → Except PyError Namespace)
variable (transform_cell : String → String)

/-- The loader's cell loop agrees with the specification-side formulation:
running all cells, skipping non-code ones, is running exactly the code
cells; success yields the loop's namespace, failure the raised error. -/
theorem runCodeOnly_eq_runCells (cells : List Cell) :
    ∀ ns : Namespace,
      runCodeOnly execPy transform_cell cells ns =
        match runCells execPy transform_cell cells ns with
        | (ns2, none) => .ok ns2
        | (_, some e) => .error e := by
  induction cells with
  | nil => intro ns; rfl
  | cons c rest ih =>
    intro ns
    by_cases hc : c.cell_type = CellType.code
    · rw [runCodeOnly, List.filter_cons_of_pos (by simpa using hc)]
      rw [runCells, if_pos hc]
      cases hx : execPy (transform_cell c.source) ns with
      | ok ns2 =>
        rw [execSeq, hx]
        exact ih ns2
      | error e => rw [execSeq, hx]
    · rw [runCodeOnly, List.filter_cons_of_neg (by simpa using hc)]
      rw [runCells, if_neg hc]
      exact ih ns

/-- If every cell of a prefix executed successfully and the next cell is a
code cell whose execution raises, the whole loop stops there, returning
the namespace reached by the prefix together with the raised error. -/
theorem runCells_append_fail (c : Cell) (e : PyError) (post : List Cell) :
    ∀ (pre : List Cell) (ns ns2 : Namespace),
      runCells execPy transform_cell pre ns = (ns2, none) →
      c.cell_type = CellType.code →
      execPy (transform_cell c.source) ns2 = .error e →
      runCells execPy transform_cell (pre ++ c :: post) ns = (ns2, some e) := by
  intro pre
  induction pre with
  | nil =>
    intro ns ns2 hpre hc hx
    rw [runCells] at hpre
    obtain ⟨rfl, -⟩ := Prod.mk.injEq .. ▸ hpre
    rw [List.nil_append, runCells, if_pos hc, hx]
  | cons p rest ih =>
    intro ns ns2 hpre hc hx
    rw [List.cons_append, runCells]
    rw [runCells] at hpre
    by_cases hp : p.cell_type = CellType.code
    · rw [if_pos hp] at hpre ⊢
      cases hy : execPy (transform_cell p.source) ns with
      | ok ns3 =>
        rw [hy] at hpre
        exact ih ns3 ns2 hpre hc hx
      | error e2 =>
        rw [hy] at hpre
        exact absurd (congrArg Prod.snd hpre) (by simp)
    · rw [if_neg hp] at hpre ⊢
      exact ih ns ns2 hpre hc hx

/-- A document without code cells leaves the namespace untouched and
raises nothing. -/
theorem runCells_no_code :
    ∀ (cells : List Cell) (ns : Namespace),
      (∀ c ∈ cells, c.cell_type ≠ CellType.code) →
      runCells execPy transform_cell cells ns = (ns, none) := by
  intro cells
  induction cells with
  | nil => intro ns _; rfl
  | cons c rest ih =>
    intro ns h
    rw [runCells, if_neg (h c (List.mem_cons_self c rest))]
    exact ih ns (fun c2 hc2 => h c2 (List.mem_cons_of_mem c hc2))

end ExecLemmas

/-- Shape of a successful `find_module` call: it either returned a cached
loader and left the finder untouched, or constructed a loader carrying the
fresh identity, cached it under the key, and bumped the counter. -/
theorem find_module_ok_cases (fs : Fs) (f : NotebookFinder) (n : String)
    (p : Option (List String)) (l : NotebookLoader) (k : Key)
    (f2 : NotebookFinder)
    (hk : cacheKey p = .ok k)
    (h : find_module fs f n p = (.ok (some l), f2)) :
    (alookup k f.loaders = some l ∧ f2 = f) ∨
    (alookup k f.loaders = none ∧ l.path = p ∧ l.id = f.nextId ∧
     f2.loaders = (k, l) :: f.loaders ∧ f2.nextId = f.nextId + 1) := by
  cases hf : find_notebook fs n p with
  | none =>
    rw [find_module, hf] at h
    exact absurd (congrArg Prod.fst h) (by simp)
  | some q =>
    rw [find_module, hf, hk] at h
    cases ha : alookup k f.loaders with
    | some l2 =>
      simp only [ha, Prod.mk.injEq, Except.ok.injEq, Option.some_inj] at h
      obtain ⟨rfl, rfl⟩ := h
      exact Or.inl ⟨rfl, rfl⟩
    | none =>
      simp only [ha, Prod.mk.injEq, Except.ok.injEq, Option.some_inj] at h
      obtain ⟨rfl, rfl⟩ := h
      exact Or.inr ⟨rfl, rfl, rfl, rfl, rfl⟩

/-! ### Claim theorems -/

/-- C1: a successful `load_module` produces a module whose namespace is
exactly the result of executing the document's fragments of kind `code`,
each passed through the transformer and then executed with the module's
namespace as the single (read and write) scope, in document order, each
exactly once; fragments of any other kind are never executed
(`runCodeOnly` folds execution over precisely the code-kind cells). -/
theorem C1_load_executes_exactly_code_fragments
    (execPy : String → Namespace → Except PyError Namespace)
    (transform_cell : String → String)
    (fs : Fs) (self : NotebookLoader) (fullname path : String)
    (nb : Notebook) (st : PyState) (r : Nat)
    (h1 : find_notebook fs fullname self.path = some path)
    (h2 : alookup path fs = some nb)
    (h3 : (load_module execPy transform_cell fs self fullname st).1 = .ok r) :
    r = st.nextRef ∧
    alookup r (load_module execPy transform_cell fs self fullname st).2.heap
      = (runCodeOnly execPy transform_cell nb.cells
          (seedNs fullname path self.path)).toOption := by
  rcases hrc : runCells execPy transform_cell nb.cells (seedNs fullname path self.path)
    with ⟨ns2, err⟩
  cases err with
  | none =>
    rw [runCodeOnly_eq_runCells, hrc]
    simp only [load_module, h1, h2, hrc] at h3 ⊢
    obtain rfl : st.nextRef = r := by simpa using h3
    simp [Except.toOption]
  | some e =>
    simp only [load_module, h1, h2, hrc] at h3
    exact absurd h3 (by simp)

/-- Witness for C1 at a concrete document with two code cells and one
markdown cell. -/
theorem C1_witness :
    (1 : Nat) = st0.nextRef ∧
    alookup 1 (load_module execDemo idT fsOk ldr0 "mod_ok" st0).2.heap
      = (runCodeOnly execDemo idT nbOk.cells
          (seedNs "mod_ok" "mod_ok.ipynb" ldr0.path)).toOption :=
  C1_load_executes_exactly_code_fragments execDemo idT fsOk ldr0 "mod_ok"
    "mod_ok.ipynb" nbOk st0 1 (by decide) (by decide) (by decide)

/-- C2: whatever dictionary the shell treats as the ambient top-level
namespace before `load_module` is restored on every exit path — the
`user_ns` reference is back to its old value and the dictionary it points
to is unchanged — both on success and when resolution, reading, or a
fragment fails. -/
theorem C2_ambient_namespace_restored
    (execPy : String → Namespace → Except PyError Namespace)
    (transform_cell : String → String)
    (fs : Fs) (self : NotebookLoader) (fullname : String) (st : PyState)
    (h : st.user_ns < st.nextRef) :
    (load_module execPy transform_cell fs self fullname st).2.user_ns = st.user_ns ∧
    alookup st.user_ns (load_module execPy transform_cell fs self fullname st).2.heap
      = alookup st.user_ns st.heap := by
  have hne : st.user_ns ≠ st.nextRef := Nat.ne_of_lt h
  cases hf : find_notebook fs fullname self.path with
  | none => simp [load_module, hf]
  | some path =>
    cases hr : alookup path fs with
    | none => simp [load_module, hf, hr]
    | some nb =>
      rcases hrc : runCells execPy transform_cell nb.cells (seedNs fullname path self.path)
        with ⟨ns2, err⟩
      cases err with
      | none => simp [load_module, hf, hr, hrc, hne]
      | some e => simp [load_module, hf, hr, hrc, hne]

/-- Witness for C2 at a concrete successful load. -/
theorem C2_witness :
    (load_module execDemo idT fsOk ldr0 "mod_ok" st0).2.user_ns = st0.user_ns ∧
    alookup st0.user_ns (load_module execDemo idT fsOk ldr0 "mod_ok" st0).2.heap
      = alookup st0.user_ns st0.heap :=
  C2_ambient_namespace_restored execDemo idT fsOk ldr0 "mod_ok" st0 (by decide)

/-- C3: the fresh module is inserted into `sys.modules` before any
fragment executes, so when a later code fragment raises, the
partially-populated module — holding exactly the bindings produced by the
successfully executed earlier fragments — is still registered under the
module's name and observable through the registry. -/
theorem C3_partial_module_registered_on_failure
    (execPy : String → Namespace → Except PyError Namespace)
    (transform_cell : String → String)
    (fs : Fs) (self : NotebookLoader) (fullname path : String)
    (nb : Notebook) (st : PyState) (pre post : List Cell) (c : Cell)
    (ns2 : Namespace) (e : PyError)
    (h1 : find_notebook fs fullname self.path = some path)
    (h2 : alookup path fs = some nb)
    (h3 : nb.cells = pre ++ c :: post)
    (h4 : runCells execPy transform_cell pre (seedNs fullname path self.path) = (ns2, none))
    (h5 : c.cell_type = CellType.code)
    (h6 : execPy (transform_cell c.source) ns2 = .error e) :
    (load_module execPy transform_cell fs self fullname st).1 = .error e ∧
    alookup fullname (load_module execPy transform_cell fs self fullname st).2.sys_modules
      = some st.nextRef ∧
    alookup st.nextRef (load_module execPy transform_cell fs self fullname st).2.heap
      = some ns2 := by
  have hrun : runCells execPy transform_cell nb.cells (seedNs fullname path self.path)
      = (ns2, some e) := by
    rw [h3]
    exact runCells_append_fail execPy transform_cell c e post pre _ ns2 h4 h5 h6
  simp [load_module, h1, h2, hrun]

/-- Witness for C3: the second code cell of `nbFail2` raises after the
first bound a name; the partially-populated module is registered. -/
theorem C3_witness :
    (load_module execDemo idT fsB ldr0 "mod_two" st0).1 = .error (PyError.exc "boom") ∧
    alookup "mod_two" (load_module execDemo idT fsB ldr0 "mod_two" st0).2.sys_modules
      = some st0.nextRef ∧
    alookup st0.nextRef (load_module execDemo idT fsB ldr0 "mod_two" st0).2.heap
      = some (seedNs "mod_two" "mod_two.ipynb" ldr0.path ++ [("a=1", Value.obj 0)]) :=
  C3_partial_module_registered_on_failure execDemo idT fsB ldr0 "mod_two"
    "mod_two.ipynb" nbFail2 st0 [⟨CellType.code, "a=1"⟩] [] ⟨CellType.code, "raise"⟩
    (seedNs "mod_two" "mod_two.ipynb" ldr0.path ++ [("a=1", Value.obj 0)])
    (PyError.exc "boom") (by decide) (by decide) (by decide) (by decide) (by decide)
    (by decide)

/-- C4 counterexample: the claim says a failing fragment surfaces as a
`LoadError` wrapping the original failure with the module name and the
failing fragment's index.  The source has a bare `try/finally` with no
wrapping: two loads that differ in module name (`mod_one` vs `mod_two`)
and in failing fragment index (0 vs 1) surface byte-for-byte identical
error values, so the propagated error carries neither a module name nor a
fragment index. -/
theorem C4_counterexample :
    (load_module execDemo idT fsA ldr0 "mod_one" st0).1 = .error (PyError.exc "boom") ∧
    (load_module execDemo idT fsB ldr0 "mod_two" st0).1 = .error (PyError.exc "boom") ∧
    (load_module execDemo idT fsA ldr0 "mod_one" st0).1
      = (load_module execDemo idT fsB ldr0 "mod_two" st0).1 := by
  decide

/-- C4 amended: if the execution of any code fragment raises during load,
the original error — unwrapped, with no added context — propagates to the
caller, and it is never silently swallowed: `load_module` fails with `e`
exactly when the cell loop raised `e`. -/
theorem C4_error_propagates_unwrapped
    (execPy : String → Namespace → Except PyError Namespace)
    (transform_cell : String → String)
    (fs : Fs) (self : NotebookLoader) (fullname path : String)
    (nb : Notebook) (st : PyState) (e : PyError)
    (h1 : find_notebook fs fullname self.path = some path)
    (h2 : alookup path fs = some nb) :
    (load_module execPy transform_cell fs self fullname st).1 = .error e ↔
      (runCells execPy transform_cell nb.cells (seedNs fullname path self.path)).2
        = some e := by
  simp only [load_module, h1, h2]
  cases hs : (runCells execPy transform_cell nb.cells (seedNs fullname path self.path)).2 with
  | none => simp
  | some e2 => simp

/-- Witness for C4 amended at the concrete document whose second cell
raises. -/
theorem C4_witness :
    (load_module execDemo idT fsB ldr0 "mod_two" st0).1 = .error (PyError.exc "boom") ↔
      (runCells execDemo idT nbFail2.cells (seedNs "mod_two" "mod_two.ipynb" ldr0.path)).2
        = some (PyError.exc "boom") :=
  C4_error_propagates_unwrapped execDemo idT fsB ldr0 "mod_two" "mod_two.ipynb"
    nbFail2 st0 (PyError.exc "boom") (by decide) (by decide)

/-- C5 counterexample: the claim describes two separate passes (all
primary candidates first, then fallbacks) with underscores replaced only
in the leaf name.  The source interleaves the fallback per directory and
replaces underscores in the whole candidate path: with directories
`["d_1", "d2"]`, only `d 1/a b.ipynb` and `d2/a_b.ipynb` on disk, and
module name `a_b`, the claim's algorithm yields `d2/a_b.ipynb` while the
code yields `d 1/a b.ipynb` — a path the claim's algorithm could never
build, since the directory's underscore was replaced too. -/
theorem C5_counterexample :
    locateClaim fsC5 "a_b" (some ["d_1", "d2"]) = some "d2/a_b.ipynb" ∧
    find_notebook fsC5 "a_b" (some ["d_1", "d2"]) = some "d 1/a b.ipynb" ∧
    find_notebook fsC5 "a_b" (some ["d_1", "d2"])
      ≠ locateClaim fsC5 "a_b" (some ["d_1", "d2"]) := by
  decide

/-- C5 amended: `locate` checks, for each search directory in caller
order, first the primary candidate built from the unmodified leaf name
and then, within the same directory, the fallback candidate obtained by
replacing every underscore of the whole candidate path (directory part
included) with a space; the first existing file wins. -/
theorem C5_per_directory_fallback (fs : Fs) (fullname : String)
    (path : Option (List String)) :
    find_notebook fs fullname path = locateAmended fs fullname path := by
  rw [find_notebook, locateAmended]
  generalize dirsOf path = ds
  induction ds with
  | nil => rfl
  | cons d rest ih =>
    rw [findNotebookIn, List.findSome?_cons]
    by_cases hp : isfile fs (pathJoin d (leafName fullname ++ ".ipynb"))
    · simp [hp, List.find?]
    · by_cases hq : isfile fs (replaceUnderscore (pathJoin d (leafName fullname ++ ".ipynb")))
      · simp [hp, hq, List.find?]
      · simp only [hp, hq, List.find?, if_neg, Bool.false_eq_true, ite_false]
        simpa [hp, hq, List.find?] using ih

/-- C6 counterexample: the claim says different search-path sequences
yield different Loader instances.  The cache key is the separator-joined
string, so the distinct sequences `["a", "b"]` and `["a/b"]` join to the
same key `a/b` and the second call returns the very loader instance
created by the first (same identity, and even bound to the first call's
path). -/
theorem C6_counterexample :
    (find_module fsC6 finder0 "nb" (some ["a", "b"])).1
      = .ok (some ⟨some ["a", "b"], 0⟩) ∧
    (find_module fsC6 (find_module fsC6 finder0 "nb" (some ["a", "b"])).2 "nb"
        (some ["a/b"])).1 = .ok (some ⟨some ["a", "b"], 0⟩) ∧
    (["a", "b"] : List String) ≠ ["a/b"] := by
  decide

/-- C6 amended: two successful `find_module` calls on the same
well-formed finder return the same loader instance exactly when their
search paths derive the same cache key (`None`, or the separator-joined
string): same key gives the same instance, different keys give loaders
with different identities.  Distinct sequences joining to the same string
therefore share one instance. -/
theorem C6_same_key_same_loader
    (fs1 fs2 : Fs) (f f1 f2 : NotebookFinder) (n1 n2 : String)
    (p1 p2 : Option (List String)) (k1 k2 : Key) (l1 l2 : NotebookLoader)
    (hwf : FinderWF f)
    (hk1 : cacheKey p1 = .ok k1) (hk2 : cacheKey p2 = .ok k2)
    (h1 : find_module fs1 f n1 p1 = (.ok (some l1), f1))
    (h2 : find_module fs2 f1 n2 p2 = (.ok (some l2), f2)) :
    (k1 = k2 → l1 = l2) ∧ (k1 ≠ k2 → l1.id ≠ l2.id) := by
  rcases find_module_ok_cases fs1 f n1 p1 l1 k1 f1 hk1 h1 with
    ⟨ha1, hf1⟩ | ⟨ha1, hp1, hi1, hl1, hn1⟩
  · rw [hf1] at h2
    rcases find_module_ok_cases fs2 f n2 p2 l2 k2 f2 hk2 h2 with
      ⟨ha2, hf2⟩ | ⟨ha2, hp2, hi2, hl2, hn2⟩
    · constructor
      · intro hk
        rw [← hk] at ha2
        exact Option.some_inj.mp (ha1.symm.trans ha2)
      · intro hne
        exact hwf.2 k1 k2 l1 l2 ha1 ha2 hne
    · constructor
      · intro hk
        rw [← hk] at ha2
        rw [ha1] at ha2
        cases ha2
      · intro _
        have hlt : l1.id < f.nextId := hwf.1 k1 l1 ha1
        omega
  · rcases find_module_ok_cases fs2 f1 n2 p2 l2 k2 f2 hk2 h2 with
      ⟨ha2, hf2⟩ | ⟨ha2, hp2, hi2, hl2, hn2⟩
    · rw [hl1] at ha2
      constructor
      · intro hk
        rw [← hk] at ha2
        rw [alookup_cons, if_pos rfl] at ha2
        exact Option.some_inj.mp ha2
      · intro hne
        rw [alookup_cons, if_neg (Ne.symm hne)] at ha2
        have hlt : l2.id < f.nextId := hwf.1 k2 l2 ha2
        omega
    · rw [hl1] at ha2
      constructor
      · intro hk
        rw [← hk] at ha2
        rw [alookup_cons, if_pos rfl] at ha2
        cases ha2
      · intro _
        rw [hn1] at hi2
        omega

/-- Witness for C6 amended: two calls with a null search path on a fresh
finder share the cache key `None` and return the same loader. -/
theorem C6_witness :
    (Key.noneKey = Key.noneKey →
      (⟨none, 0⟩ : NotebookLoader) = (⟨none, 0⟩ : NotebookLoader)) ∧
    (Key.noneKey ≠ Key.noneKey →
      (⟨none, 0⟩ : NotebookLoader).id ≠ (⟨none, 0⟩ : NotebookLoader).id) :=
  C6_same_key_same_loader fsC8 fsC8 finder0 ⟨[(Key.noneKey, ⟨none, 0⟩)], 1⟩
    ⟨[(Key.noneKey, ⟨none, 0⟩)], 1⟩ "nb" "nb" none none Key.noneKey Key.noneKey
    ⟨none, 0⟩ ⟨none, 0⟩ (by simp [FinderWF, finder0]) rfl rfl (by decide) (by decide)

/-- C7: when no directory yields a matching notebook, `find_notebook`
returns `none` as a normal result and `find_module` returns Decline
(`None`) without raising and with the finder — in particular its loader
cache — unchanged. -/
theorem C7_decline_on_notfound (fs : Fs) (f : NotebookFinder) (fullname : String)
    (path : Option (List String))
    (h : find_notebook fs fullname path = none) :
    find_module fs f fullname path = (.ok none, f) := by
  rw [find_module, h]

/-- Witness for C7 on an empty filesystem. -/
theorem C7_witness :
    find_module [] finder0 "x" none = (.ok none, finder0) :=
  C7_decline_on_notfound [] finder0 "x" none (by decide)

/-- C8 counterexample: the claim says `find_module` completes without
error for both a null and an empty search-path set.  With a matching
notebook in the current directory, a null path completes, but an empty
list stays the dict key itself (`if path:` is false), and using the
unhashable list as a key raises `TypeError`. -/
theorem C8_counterexample :
    find_module fsC8 finder0 "nb" (some []) = (.error PyError.typeError, finder0) ∧
    (find_module fsC8 finder0 "nb" none).1 = .ok (some ⟨none, 0⟩) := by
  decide

/-- C8 amended: the cache key is derived deterministically — a null path
maps to the key `None` and a nonempty path to its separator-joined
concatenation — and `find_module` completes without error for a null
path; but an empty search-path list makes the key computation raise
`TypeError`, even though `find_notebook` itself treats an empty and a
null search path alike as the single implicit current directory. -/
theorem C8_key_derivation (fs : Fs) (n : String) (ps : List String)
    (h : ps ≠ []) :
    cacheKey none = .ok Key.noneKey ∧
    cacheKey (some ps) = .ok (Key.strKey (String.intercalate "/" ps)) ∧
    cacheKey (some []) = .error PyError.typeError ∧
    find_notebook fs n none = find_notebook fs n (some []) := by
  refine ⟨rfl, ?_, rfl, rfl⟩
  cases ps with
  | nil => exact absurd rfl h
  | cons a as => rfl

/-- Witness for C8 amended at a singleton search path. -/
theorem C8_witness :
    cacheKey none = .ok Key.noneKey ∧
    cacheKey (some ["a"]) = .ok (Key.strKey (String.intercalate "/" ["a"])) ∧
    cacheKey (some []) = .error PyError.typeError ∧
    find_notebook [] "x" none = find_notebook [] "x" (some []) :=
  C8_key_derivation [] "x" ["a"] (by decide)

/-- C9: every module produced by `load_module` starts from a namespace
pre-seeded — before any fragment executes — with `get_ipython` (alongside
the name, file-path and loader metadata); a document with no code
fragments therefore yields a module whose namespace is exactly that seed
and so contains `get_ipython`, a name bound by no fragment. -/
theorem C9_get_ipython_preseeded
    (execPy : String → Namespace → Except PyError Namespace)
    (transform_cell : String → String)
    (fs : Fs) (self : NotebookLoader) (fullname path : String)
    (nb : Notebook) (st : PyState)
    (h1 : find_notebook fs fullname self.path = some path)
    (h2 : alookup path fs = some nb)
    (h3 : ∀ c ∈ nb.cells, c.cell_type ≠ CellType.code) :
    alookup "get_ipython" (seedNs fullname path self.path)
      = some Value.getIpythonFn ∧
    (load_module execPy transform_cell fs self fullname st).1 = .ok st.nextRef ∧
    alookup st.nextRef (load_module execPy transform_cell fs self fullname st).2.heap
      = some (seedNs fullname path self.path) := by
  have hrc := runCells_no_code execPy transform_cell nb.cells
    (seedNs fullname path self.path) h3
  refine ⟨rfl, ?_, ?_⟩
  · simp [load_module, h1, h2, hrc]
  · simp [load_module, h1, h2, hrc]

/-- Witness for C9 at a markdown-only notebook. -/
theorem C9_witness :
    alookup "get_ipython" (seedNs "m" "m.ipynb" ldr0.path)
      = some Value.getIpythonFn ∧
    (load_module execDemo idT fsMd ldr0 "m" st0).1 = .ok st0.nextRef ∧
    alookup st0.nextRef (load_module execDemo idT fsMd ldr0 "m" st0).2.heap
      = some (seedNs "m" "m.ipynb" ldr0.path) :=
  C9_get_ipython_preseeded execDemo idT fsMd ldr0 "m" "m.ipynb" nbMd st0
    (by decide) (by decide) (by decide)

/-- C10: when the loader's bound search paths do not resolve the name to
an existing document (`find_notebook` yields `none`), `load_module`
raises (the `io.open(None, ...)` call) before any module is created or
registered: the returned state is exactly the input state, so
`sys.modules` is unchanged and no partially-built module exists. -/
theorem C10_notfound_leaves_registry_unchanged
    (execPy : String → Namespace → Except PyError Namespace)
    (transform_cell : String → String)
    (fs : Fs) (self : NotebookLoader) (fullname : String) (st : PyState)
    (h : find_notebook fs fullname self.path = none) :
    load_module execPy transform_cell fs self fullname st
      = (.error PyError.typeError, st) := by
  rw [load_module, h]

/-- Witness for C10 on an empty filesystem. -/
theorem C10_witness :
    load_module execDemo idT [] ldr0 "x" st0 = (.error PyError.typeError, st0) :=
  C10_notfound_leaves_registry_unchanged execDemo idT [] ldr0 "x" st0 (by decide)

end NbImport
